import Mathlib

/-!
Shallow embedding of the ZapReplyApi webhook notification pipeline.

The Go sources embedded here are:
* `src/infrastructure/whatsapp/webhook.go` — `forwardToWebhook`,
  `createPayload`, `determineMessageType`, `SubmitWebhook`;
* the REST command file (`restServer`) — the `/call-ended` handler with its
  process-wide dedup cache (`callWebhookCache`, `LoadOrStore` / `Delete`).

External collaborators (`ParseJID`, `ExtractMedia`, `GetGroupName`,
`RejectCall`, the HTTP client, the phone-number normalizer) are modelled as
explicit oracle parameters, so theorems quantify over their behaviour.
Machine time, goroutine scheduling and the TTL timer are abstracted: cache
membership models "within the TTL window".
-/

namespace ZapReply

/-! ## String helpers (executable substring / suffix tests) -/

/-- `startsWithChars p l` is true when `p` is an initial segment of `l`. -/
def startsWithChars : List Char → List Char → Bool
  | [], _ => true
  | _ :: _, [] => false
  | p :: ps, c :: cs => p = c && startsWithChars ps cs

/-- `listContainsSub needle hay` is true when `needle` occurs contiguously in `hay`. -/
def listContainsSub (needle : List Char) : List Char → Bool
  | [] => needle.isEmpty
  | c :: cs => startsWithChars needle (c :: cs) || listContainsSub needle cs

/-- Model of Go's `strings.Contains`. -/
def strContains (hay needle : String) : Bool :=
  listContainsSub needle.data hay.data

/-- `strEndsWith s suffix` tests whether `s` ends with `suffix` (used only to
formalise the spec's "ends in the group-domain suffix" wording). -/
def strEndsWith (s suffix : String) : Bool :=
  startsWithChars suffix.data.reverse s.data.reverse

/-- The whitespace class of Go's regexp `\s`: space, tab, newline, form feed,
carriage return. -/
def isSpaceChar (c : Char) : Bool :=
  c = ' ' || c = '\t' || c = '\n' || c = '\x0c' || c = '\r'

/-- Does the regex `https?://[^\s]+` match at the start of this character list?
That is: literal `http`, optional `s`, `://`, then at least one non-space. -/
def urlMatchAt (l : List Char) : Bool :=
  (startsWithChars "http://".data l &&
    (match l.drop 7 with
     | c :: _ => !isSpaceChar c
     | [] => false)) ||
  (startsWithChars "https://".data l &&
    (match l.drop 8 with
     | c :: _ => !isSpaceChar c
     | [] => false))

/-- Search for a match of `https?://[^\s]+` anywhere in the list. -/
def urlMatchAnywhere : List Char → Bool
  | [] => false
  | c :: cs => urlMatchAt (c :: cs) || urlMatchAnywhere cs

/-- Model of `regexp.MustCompile("https?://[^\s]+").MatchString` — the single
URL pattern shared by `createPayload` and `determineMessageType`. -/
def matchesUrlPattern (s : String) : Bool :=
  urlMatchAnywhere s.data

/-! ## Delivery client: the retry loop of `SubmitWebhook` -/

/-- Observable outcome of one `SubmitWebhook` call: whether it succeeded, how
many HTTP attempts (`client.Do`) were made, every sleep performed (seconds, in
order), and the attempt count named in the returned error, if any. -/
structure RetryOutcome where
  success : Bool
  attemptsMade : Nat
  sleeps : List Nat
  failAttempts : Option Nat
  deriving DecidableEq, Repr

/-- The retry loop of `SubmitWebhook`
(`for attempt = 0; attempt < maxAttempts; attempt++ ...`), with the HTTP client
modelled by the oracle `doOk : Nat → Bool` telling whether `client.Do` succeeds
on a given (0-based) attempt index.  Faithful to the source: on success return
immediately; on failure sleep `sleepDuration`, double it, and continue; after
the loop return an error naming `attempt` (= `maxAttempts`). -/
def submitLoop (doOk : Nat → Bool) : Nat → Nat → Nat → List Nat → RetryOutcome
  | attempt, 0, _, sleeps =>
      { success := false, attemptsMade := attempt, sleeps := sleeps.reverse,
        failAttempts := some attempt }
  | attempt, r + 1, sleepDur, sleeps =>
      if doOk attempt then
        { success := true, attemptsMade := attempt + 1, sleeps := sleeps.reverse,
          failAttempts := none }
      else
        submitLoop doOk (attempt + 1) r (sleepDur * 2) (sleepDur :: sleeps)

/-- `SubmitWebhook`'s retry behaviour: 5 attempts, backoff starting at 1s. -/
def SubmitWebhook (doOk : Nat → Bool) : RetryOutcome :=
  submitLoop doOk 0 5 1 []

/-- The delays that fall between two consecutive attempts (a sleep performed
after the final attempt is not between attempts). -/
def interAttemptDelays (r : RetryOutcome) : List Nat :=
  r.sleeps.take (r.attemptsMade - 1)

/-! ## `forwardToWebhook`'s per-URL delivery loop -/

/-- The `for _, url := range config.WhatsappWebhook` loop of
`forwardToWebhook`: `submit url` tells whether `SubmitWebhook(payload, url)`
succeeds.  Returns the list of URLs to which delivery was attempted (in order)
and whether the whole loop succeeded.  Faithful to the source: a failing URL
makes the function return that error immediately. -/
def forwardLoop (submit : String → Bool) : List String → List String × Bool
  | [] => ([], true)
  | u :: rest =>
      if submit u then
        let r := forwardLoop submit rest
        (u :: r.1, r.2)
      else ([u], false)

/-! ## Dedup cache and the `/call-ended` handler -/

/-- Model of `callWebhookCache.LoadOrStore(key, now)`: atomic check-and-insert
on the set of stored keys.  Returns `(firstObserver, newCache)`:
`firstObserver = true` exactly when the key was absent (and is now stored). -/
def Guard (cache : List String) (key : String) : Bool × List String :=
  if key ∈ cache then (false, cache) else (true, key :: cache)

/-- Body of the `/call-ended` request. -/
structure CallEndedRequest where
  callId : String
  phone : String
  deriving DecidableEq, Repr

/-- Observable response classes of the `/call-ended` handler. -/
inductive CallEndedResponse where
  | badRequest (msg : String)
  | serverError (msg : String)
  | alreadyProcessed (callId phone : String)
  | rejected (callId phone : String)
  deriving DecidableEq, Repr

/-- Side-effecting actions the `/call-ended` handler can perform. -/
inductive CallAction where
  | rejectCall (jid callId : String)
  | submitWebhook (url : String)
  deriving DecidableEq, Repr

/-- Result of one `/call-ended` request: the cache afterwards, the HTTP
response, and the actions attempted (in order). -/
structure HandlerResult where
  cache : List String
  response : CallEndedResponse
  actions : List CallAction
  deriving DecidableEq, Repr

/-- The composite dedup key `request.CallID + ":" + request.Phone`. -/
def dedupKey (req : CallEndedRequest) : String :=
  req.callId ++ ":" ++ req.phone

/-- The `/call-ended` handler of `restServer`, embedded over oracles:
`waCliPresent` models `whatsapp.GetWaCli() != nil`, `parseJID` models
`whatsapp.ParseJID`, `rejectOk jid callId` tells whether `waCli.RejectCall`
succeeds, and `webhookUrls` is `config.WhatsappWebhook`.  Faithful to the
source: validation, JID parsing, atomic `LoadOrStore` dedup, reject-call with
eviction of the key on failure, then webhook submissions. -/
def handleCallEnded (waCliPresent : Bool) (parseJID : String → Except String String)
    (rejectOk : String → String → Bool) (webhookUrls : List String)
    (cache : List String) (req : CallEndedRequest) : HandlerResult :=
  if req.callId = "" ∨ req.phone = "" then
    { cache := cache, response := .badRequest "call_id and Phone are required", actions := [] }
  else if !waCliPresent then
    { cache := cache, response := .serverError "WhatsApp client not initialized", actions := [] }
  else
    match parseJID req.phone with
    | .error e => { cache := cache, response := .badRequest ("Invalid Phone: " ++ e), actions := [] }
    | .ok jid =>
        let g := Guard cache (dedupKey req)
        if !g.1 then
          { cache := g.2, response := .alreadyProcessed req.callId req.phone, actions := [] }
        else if rejectOk jid req.callId then
          { cache := g.2, response := .rejected req.callId req.phone,
            actions := .rejectCall jid req.callId :: webhookUrls.map .submitWebhook }
        else
          { cache := cache, response := .serverError "Failed to reject call",
            actions := [.rejectCall jid req.callId] }

/-- Number of reject-call actions in a list of actions. -/
def rejectCount : List CallAction → Nat
  | [] => 0
  | .rejectCall _ _ :: as => rejectCount as + 1
  | .submitWebhook _ :: as => rejectCount as

/-! ## Event data model -/

/-- `events.Message` extended-text variant: text plus optional link metadata
(empty strings model absent protobuf fields, matching Go's getter defaults). -/
structure ExtendedTextMsg where
  text : String
  title : String
  description : String
  deriving DecidableEq, Repr

/-- Audio variant: the push-to-talk flag and the media reference handed to
`ExtractMedia`. -/
structure AudioMsg where
  ptt : Bool
  ref : String
  deriving DecidableEq, Repr

/-- Poll-update variant: the originating poll's message key ID. -/
structure PollUpdateMsg where
  pollId : String
  deriving DecidableEq, Repr

/-- One contact entry (display name and vcard). -/
structure ContactEntry where
  displayName : String
  vcard : String
  deriving DecidableEq, Repr

/-- The `waE2E.Message` payload shape: a struct of optional variants probed by
nil-checks in the Go source.  Media-bearing variants carry the reference
string handed to `ExtractMedia`; pass-through variants carry their raw
rendering. -/
structure WAMessage where
  conversation : String
  extendedText : Option ExtendedTextMsg
  audio : Option AudioMsg
  image : Option String
  video : Option String
  document : Option String
  sticker : Option String
  contact : Option ContactEntry
  contactsArray : Option (List ContactEntry)
  location : Option String
  liveLocation : Option String
  list : Option String
  order : Option String
  paymentInvite : Option String
  pollCreationV3 : Option String
  pollCreationV4 : Option String
  pollCreationV5 : Option String
  pollUpdate : Option PollUpdateMsg
  reaction : Option String
  deriving DecidableEq, Repr

/-- Event metadata (`evt.Info` plus the identifiers `buildEventMessage` reads
from the event): source string, chat JID string, push name, the envelope
`Info.Type` string, the RFC3339-formatted timestamp, the message ID, the
quoted/origin message and the replied-to ID. -/
structure MessageInfo where
  sourceString : String
  chatString : String
  pushName : String
  envType : String
  timestamp : String
  msgId : String
  quotedMessage : String
  repliedId : String
  deriving DecidableEq, Repr

/-- One inbound `events.Message`. -/
structure MessageEvent where
  info : MessageInfo
  message : WAMessage
  isViewOnce : Bool
  forwarded : Bool
  deriving DecidableEq, Repr

/-- Result shape of `buildEventMessage`. -/
structure EvtMessage where
  id : String
  text : String
  quotedMessage : String
  repliedId : String
  deriving DecidableEq, Repr

/-- Modelled from the spec: `buildEventMessage` (declared in this repository
but outside the provided sources) resolves the event's text body — the
extended-text body when that variant is present, otherwise the plain
conversation text — and carries the message ID, quoted/origin message and
replied-to ID through. -/
def buildEventMessage (evt : MessageEvent) : EvtMessage :=
  { id := evt.info.msgId
    text :=
      match evt.message.extendedText with
      | some et => et.text
      | none => evt.message.conversation
    quotedMessage := evt.info.quotedMessage
    repliedId := evt.info.repliedId }

/-- Modelled from the spec: `buildEventReaction` (outside the provided
sources) yields the reaction's message text, empty when the event carries no
reaction. -/
def buildEventReaction (evt : MessageEvent) : String :=
  (evt.message.reaction).getD ""

/-- External collaborators and configuration of `createPayload`, as oracles:
`parseJID` models `types.ParseJID`, `extractMedia` models
`whatsapp.ExtractMedia` applied to the configured media directory,
`getGroupName` models `GetGroupName`, `waCliStoreId` models
`GetWaCli().Store.ID` (absent when the client or its ID is nil),
`extractPhoneNumber` the digit normalizer, and `appPort` is `config.AppPort`. -/
structure Collab where
  parseJID : String → Except String String
  extractMedia : String → Except String String
  getGroupName : String → Except String String
  waCliStoreId : Option String
  extractPhoneNumber : String → String
  appPort : String

/-- Model of the Go probe
`evt.Info.Type == "media" && strings.Contains(fmt.Sprintf("%+v", evt.Message), "contactsArrayMessage")`:
the formatted protobuf rendering contains the `contactsArrayMessage` field
name exactly when that field is populated. -/
def multiContactOverride (evt : MessageEvent) : Bool :=
  if evt.info.envType = "media" then evt.message.contactsArray.isSome else false

/-- `determineMessageType` from the source: ordered nil-checks, first match
wins; the `text` argument is the resolved text used for the URL test. -/
def determineMessageType (evt : MessageEvent) (text : String) : String :=
  match evt.message.audio with
  | some a => if a.ptt then "voice_message" else "audio_message"
  | none =>
    if evt.message.image.isSome then "image_message"
    else if evt.message.video.isSome then "video_message"
    else if evt.message.document.isSome then "document_message"
    else if evt.message.sticker.isSome then "sticker_message"
    else if evt.message.contact.isSome then "contact_message"
    else if multiContactOverride evt then "contact_message"
    else if evt.message.location.isSome then "location_message"
    else if evt.message.liveLocation.isSome then "live_location_message"
    else if evt.message.list.isSome then "list_message"
    else if evt.message.order.isSome then "order"
    else if evt.message.paymentInvite.isSome then "payment"
    else if evt.message.pollCreationV3.isSome || evt.message.pollCreationV4.isSome
            || evt.message.pollCreationV5.isSome then "poll_message"
    else if evt.message.pollUpdate.isSome then "poll_message"
    else if evt.message.reaction.isSome then "reaction_message"
    else if ¬ evt.message.conversation = "" ∨ evt.message.extendedText.isSome then
      if matchesUrlPattern text then "link_message" else "text_message"
    else "unknown"

/-- The nested `message` object of the outbound payload.  `id`,
`messageOrigin`, `repliedId` and `textMessage` are set unconditionally by the
source; the remaining keys are optional. -/
structure MessageData where
  id : String
  messageOrigin : String
  repliedId : String
  textMessage : String
  titleLink : Option String
  linkDescription : Option String
  pollUpdate : Option String
  deriving DecidableEq, Repr

/-- The outbound webhook payload `body`.  `Option` fields model keys the
source sets only conditionally; non-`Option` fields are set unconditionally. -/
structure Payload where
  senderNumber : Option String
  message : MessageData
  pushName : Option String
  reaction : Option String
  viewOnce : Option Bool
  forwarded : Option Bool
  timestamp : Option String
  isGroup : Bool
  groupName : Option String
  myNumber : Bool
  msgType : String
  port : String
  contact : Option (List ContactEntry)
  audio : Option String
  document : Option String
  image : Option String
  list : Option String
  liveLocation : Option String
  location : Option String
  order : Option String
  sticker : Option String
  video : Option String
  deriving DecidableEq, Repr

/-- One media extraction step of `createPayload`: absent variant means no
call; a failing `ExtractMedia` call aborts with a wrapped webhook error. -/
def extractIf (co : Collab) (ref? : Option String) (what : String) :
    Except String (Option String) :=
  match ref? with
  | none => .ok none
  | some r =>
      match co.extractMedia r with
      | .ok p => .ok (some p)
      | .error e => .error ("Failed to download " ++ what ++ ": " ++ e)

/-- Everything `createPayload` computes besides JID parsing and media
extraction (all of it total): text/link resolution, optional metadata keys,
group detection and name lookup, own-number detection, message type with the
multi-contact override, contact list, pass-through variants, and the supplied
extraction results. -/
def assemblePayload (co : Collab) (evt : MessageEvent) (jid : String)
    (audioPath docPath imgPath stickerPath videoPath : Option String) : Payload :=
  let message := buildEventMessage evt
  let reactionText := buildEventReaction evt
  let titleLink : Option String :=
    match evt.message.extendedText with
    | some et =>
        if matchesUrlPattern et.text then
          (if et.title = "" then none else some et.title)
        else none
    | none => none
  let linkDescription : Option String :=
    match evt.message.extendedText with
    | some et =>
        if matchesUrlPattern et.text then
          (if et.description = "" then none else some et.description)
        else none
    | none => none
  let textMessage : String :=
    match evt.message.extendedText with
    | some et => if matchesUrlPattern et.text then et.text else message.text
    | none => message.text
  let isGroup : Bool := strContains evt.info.chatString "@g.us"
  let groupName : Option String :=
    if isGroup then
      match co.getGroupName jid with
      | .ok n => if n = "" then none else some n
      | .error _ => none
    else none
  let myNumber : Bool :=
    match co.waCliStoreId with
    | some sid =>
        if co.extractPhoneNumber evt.info.sourceString = co.extractPhoneNumber sid
        then true else false
    | none => false
  let baseType := determineMessageType evt message.text
  { senderNumber := if evt.info.sourceString = "" then none else some evt.info.sourceString
    message :=
      { id := message.id
        messageOrigin := message.quotedMessage
        repliedId := message.repliedId
        textMessage := textMessage
        titleLink := titleLink
        linkDescription := linkDescription
        pollUpdate := evt.message.pollUpdate.map PollUpdateMsg.pollId }
    pushName := if evt.info.pushName = "" then none else some evt.info.pushName
    reaction := if reactionText = "" then none else some reactionText
    viewOnce := if evt.isViewOnce then some true else none
    forwarded := if evt.forwarded then some true else none
    timestamp := if evt.info.timestamp = "" then none else some evt.info.timestamp
    isGroup := isGroup
    groupName := groupName
    myNumber := myNumber
    msgType := if multiContactOverride evt then "contact_message" else baseType
    port := co.appPort
    contact :=
      if multiContactOverride evt then some ((evt.message.contactsArray).getD [])
      else evt.message.contact.map (fun c => [c])
    audio := audioPath
    document := docPath
    image := imgPath
    list := evt.message.list
    liveLocation := evt.message.liveLocation
    location := evt.message.location
    order := evt.message.order
    sticker := stickerPath
    video := videoPath }

/-- `createPayload` from the source: fails with a webhook error exactly at JID
parsing and at each failing media extraction (in source order: audio,
document, image, sticker, video); everything else is total. -/
def createPayload (co : Collab) (evt : MessageEvent) : Except String Payload :=
  match co.parseJID evt.info.chatString with
  | .error e => .error ("Invalid JID: " ++ e)
  | .ok jid =>
    match extractIf co (evt.message.audio.map AudioMsg.ref) "audio" with
    | .error e => .error e
    | .ok audioPath =>
      match extractIf co evt.message.document "document" with
      | .error e => .error e
      | .ok docPath =>
        match extractIf co evt.message.image "image" with
        | .error e => .error e
        | .ok imgPath =>
          match extractIf co evt.message.sticker "sticker" with
          | .error e => .error e
          | .ok stickerPath =>
            match extractIf co evt.message.video "video" with
            | .error e => .error e
            | .ok videoPath =>
                .ok (assemblePayload co evt jid audioPath docPath imgPath stickerPath videoPath)

/-- `forwardToWebhook` from the source: build the payload, then deliver it to
each configured URL in order, aborting on the first failure.  `submit p url`
tells whether `SubmitWebhook(p, url)` succeeds; the result carries the URLs
attempted and overall success. -/
def forwardToWebhook (co : Collab) (submit : Payload → String → Bool)
    (urls : List String) (evt : MessageEvent) : List String × Bool :=
  match createPayload co evt with
  | .error _ => ([], false)
  | .ok p => forwardLoop (submit p) urls

/-! ## The single-variant view of events

The spec's data model declares `InboundEvent` a tagged union with exactly one
populated variant; claims quantified over such events are stated over
`messageOfVariant`. -/

/-- The message payload with no variant populated. -/
def emptyMessage : WAMessage :=
  { conversation := "", extendedText := none, audio := none, image := none,
    video := none, document := none, sticker := none, contact := none,
    contactsArray := none, location := none, liveLocation := none, list := none,
    order := none, paymentInvite := none, pollCreationV3 := none,
    pollCreationV4 := none, pollCreationV5 := none, pollUpdate := none,
    reaction := none }

/-- The tagged union of message variants (spec §3). -/
inductive EventVariant where
  | text (body : String)
  | extendedText (et : ExtendedTextMsg)
  | audio (a : AudioMsg)
  | image (ref : String)
  | video (ref : String)
  | document (ref : String)
  | sticker (ref : String)
  | contact (c : ContactEntry)
  | contactsArray (cs : List ContactEntry)
  | location (raw : String)
  | liveLocation (raw : String)
  | list (raw : String)
  | order (raw : String)
  | paymentInvite (raw : String)
  | pollCreationV3 (raw : String)
  | pollCreationV4 (raw : String)
  | pollCreationV5 (raw : String)
  | pollUpdate (pu : PollUpdateMsg)
  | reaction (text : String)
  deriving DecidableEq, Repr

/-- The message carrying exactly the given variant and nothing else. -/
def messageOfVariant : EventVariant → WAMessage
  | .text b => { emptyMessage with conversation := b }
  | .extendedText et => { emptyMessage with extendedText := some et }
  | .audio a => { emptyMessage with audio := some a }
  | .image r => { emptyMessage with image := some r }
  | .video r => { emptyMessage with video := some r }
  | .document r => { emptyMessage with document := some r }
  | .sticker r => { emptyMessage with sticker := some r }
  | .contact c => { emptyMessage with contact := some c }
  | .contactsArray cs => { emptyMessage with contactsArray := some cs }
  | .location r => { emptyMessage with location := some r }
  | .liveLocation r => { emptyMessage with liveLocation := some r }
  | .list r => { emptyMessage with list := some r }
  | .order r => { emptyMessage with order := some r }
  | .paymentInvite r => { emptyMessage with paymentInvite := some r }
  | .pollCreationV3 r => { emptyMessage with pollCreationV3 := some r }
  | .pollCreationV4 r => { emptyMessage with pollCreationV4 := some r }
  | .pollCreationV5 r => { emptyMessage with pollCreationV5 := some r }
  | .pollUpdate pu => { emptyMessage with pollUpdate := some pu }
  | .reaction t => { emptyMessage with reaction := some t }

/-! ## Accessors used in theorem statements -/

/-- Is the result an error? -/
def isErrE {α : Type} : Except String α → Bool
  | .error _ => true
  | .ok _ => false

/-- The payload of a successful result. -/
def okPayload : Except String Payload → Option Payload
  | .ok p => some p
  | .error _ => none

/-- The `Type` key of a successful result. -/
def typeOf (r : Except String Payload) : Option String :=
  (okPayload r).map Payload.msgType

/-- The `GroupName` key of a successful result (inner `none` = key absent). -/
def groupNameOf (r : Except String Payload) : Option (Option String) :=
  (okPayload r).map Payload.groupName

/-- The `SenderNumber` key of a successful result (inner `none` = key absent). -/
def senderNumberOf (r : Except String Payload) : Option (Option String) :=
  (okPayload r).map Payload.senderNumber

/-- Number of populated top-level media-path keys among
`audio`/`document`/`image`/`sticker`/`video`. -/
def mediaKeyCount (p : Payload) : Nat :=
  p.audio.isSome.toNat + p.document.isSome.toNat + p.image.isSome.toNat
    + p.sticker.isSome.toNat + p.video.isSome.toNat

/-- Would some required media extraction fail for this message?  The
spec-shaped characterization compared against `createPayload`'s behaviour. -/
def requiredExtractionFails (co : Collab) (m : WAMessage) : Bool :=
  isErrE (extractIf co (m.audio.map AudioMsg.ref) "audio")
  || isErrE (extractIf co m.document "document")
  || isErrE (extractIf co m.image "image")
  || isErrE (extractIf co m.sticker "sticker")
  || isErrE (extractIf co m.video "video")

/-- The `IsGroup` key of a successful result. -/
def isGroupOf (r : Except String Payload) : Option Bool :=
  (okPayload r).map Payload.isGroup

/-- The event carrying exactly the given variant with the given metadata. -/
def mkEvent (info : MessageInfo) (v : EventVariant) (vo fw : Bool) : MessageEvent :=
  { info := info, message := messageOfVariant v, isViewOnce := vo, forwarded := fw }

/-- Stated from the spec's words for comparison: `TitleLink` is the
extended-text title, copied when the extended-text metadata is present
(non-empty). -/
def specTitleLink (m : WAMessage) : Option String :=
  match m.extendedText with
  | some et => if et.title = "" then none else some et.title
  | none => none

/-- Stated from the spec's words for comparison: `LinkDescription` is the
extended-text description, copied when present (non-empty). -/
def specLinkDescription (m : WAMessage) : Option String :=
  match m.extendedText with
  | some et => if et.description = "" then none else some et.description
  | none => none

/-! ## Concrete fixtures -/

/-- Collaborators that always succeed. -/
def okCollab : Collab :=
  { parseJID := fun s => .ok s
    extractMedia := fun r => .ok ("/media/" ++ r)
    getGroupName := fun _ => .ok "Group"
    waCliStoreId := none
    extractPhoneNumber := fun s => s
    appPort := "3000" }

/-- A plain individual-chat event metadata fixture. -/
def baseInfo : MessageInfo :=
  { sourceString := "5511999@s.whatsapp.net"
    chatString := "5511999@s.whatsapp.net"
    pushName := "Alice"
    envType := "text"
    timestamp := "2026-01-01T00:00:00Z"
    msgId := "MSG1"
    quotedMessage := ""
    repliedId := "" }

/-- A text event whose sender source string is empty. -/
def emptySenderEvent : MessageEvent :=
  mkEvent { baseInfo with sourceString := "" } (.text "hello") false false

/-- A text event whose chat string contains `@g.us` without ending in it. -/
def gusaEvent : MessageEvent :=
  mkEvent { baseInfo with chatString := "55@g.usa" } (.text "hi") false false

/-- A `media`-typed envelope carrying both an image and a multi-contact
array. -/
def mediaContactEvent : MessageEvent :=
  { info := { baseInfo with envType := "media" }
    message := { emptyMessage with
                  image := some "img1"
                  contactsArray := some [{ displayName := "Bob", vcard := "VCARD" }] }
    isViewOnce := false
    forwarded := false }

/-- An all-absent payload, used as the default of `payloadOrEmpty`. -/
def emptyPayload : Payload :=
  { senderNumber := none
    message := { id := "", messageOrigin := "", repliedId := "", textMessage := "",
                 titleLink := none, linkDescription := none, pollUpdate := none }
    pushName := none
    reaction := none
    viewOnce := none
    forwarded := none
    timestamp := none
    isGroup := false
    groupName := none
    myNumber := false
    msgType := ""
    port := ""
    contact := none
    audio := none
    document := none
    image := none
    list := none
    liveLocation := none
    location := none
    order := none
    sticker := none
    video := none }

/-- The payload of a successful result, defaulting to `emptyPayload`. -/
def payloadOrEmpty : Except String Payload → Payload
  | .ok p => p
  | .error _ => emptyPayload

/-! ## Theorems -/

/-- Webhook submissions perform no reject-call action. -/
theorem rejectCount_map_submit (urls : List String) :
    rejectCount (urls.map CallAction.submitWebhook) = 0 := by
  induction urls with
  | nil => rfl
  | cons u rest ih => simpa [rejectCount] using ih

/-- C2: the dedup guard is check-and-insert — two successive guard calls with
the same key within the TTL window return `true` then `false`, while a fresh
distinct key still returns `true`; and a call-ended event observed twice
within the TTL window performs exactly one reject-call action in total, the
second observation answering "already processed" with no actions at all. -/
theorem call_ended_dedup (pj : String → Except String String)
    (rj : String → String → Bool) (urls : List String)
    (cache : List String) (req : CallEndedRequest) (jid : String)
    (hc : ¬ req.callId = "") (hp : ¬ req.phone = "")
    (hpj : pj req.phone = .ok jid) (hrj : rj jid req.callId = true)
    (hk : dedupKey req ∉ cache) :
    (Guard cache (dedupKey req)).1 = true ∧
    (Guard (Guard cache (dedupKey req)).2 (dedupKey req)).1 = false ∧
    (∀ k, k ≠ dedupKey req → k ∉ cache →
      (Guard (Guard cache (dedupKey req)).2 k).1 = true) ∧
    rejectCount (handleCallEnded true pj rj urls cache req).actions = 1 ∧
    (handleCallEnded true pj rj urls cache req).response
      = .rejected req.callId req.phone ∧
    (handleCallEnded true pj rj urls
        (handleCallEnded true pj rj urls cache req).cache req).response
      = .alreadyProcessed req.callId req.phone ∧
    (handleCallEnded true pj rj urls
        (handleCallEnded true pj rj urls cache req).cache req).actions = [] := by
  refine ⟨by simp [Guard, hk], by simp [Guard, hk], ?_, ?_, ?_, ?_, ?_⟩
  · intro k hne hni
    simp [Guard, hk, hne, hni]
  · simp [handleCallEnded, hc, hp, hpj, hrj, Guard, hk, rejectCount,
      rejectCount_map_submit]
  · simp [handleCallEnded, hc, hp, hpj, hrj, Guard, hk]
  · simp [handleCallEnded, hc, hp, hpj, hrj, Guard, hk]
  · simp [handleCallEnded, hc, hp, hpj, hrj, Guard, hk]

/-- Witness for C2: the call-ended event `call_id="ABC", Phone="+1555"`
observed twice against an empty cache. -/
theorem call_ended_dedup_w :
    rejectCount (handleCallEnded true (fun s => .ok s) (fun _ _ => true)
        ["https://hook.example"] [] ⟨"ABC", "+1555"⟩).actions = 1 ∧
    (handleCallEnded true (fun s => .ok s) (fun _ _ => true)
        ["https://hook.example"]
        (handleCallEnded true (fun s => .ok s) (fun _ _ => true)
          ["https://hook.example"] [] ⟨"ABC", "+1555"⟩).cache
        ⟨"ABC", "+1555"⟩).response = .alreadyProcessed "ABC" "+1555" :=
  have h := call_ended_dedup (fun s => .ok s) (fun _ _ => true)
    ["https://hook.example"] [] ⟨"ABC", "+1555"⟩ "+1555"
    (by decide) (by decide) rfl rfl (by decide)
  ⟨h.2.2.2.1, h.2.2.2.2.2.1⟩

/-- C6: if the guarded reject-call action fails for a first observer, the
handler evicts the dedup key immediately — the cache is restored to its
pre-call state and an error is returned — so a subsequent guard call with the
same key before TTL expiry returns `true`, and a retried request performs the
reject attempt again. -/
theorem call_ended_evict_on_failure (pj : String → Except String String)
    (rj : String → String → Bool) (urls : List String)
    (cache : List String) (req : CallEndedRequest) (jid : String)
    (hc : ¬ req.callId = "") (hp : ¬ req.phone = "")
    (hpj : pj req.phone = .ok jid) (hrj : rj jid req.callId = false)
    (hk : dedupKey req ∉ cache) :
    (handleCallEnded true pj rj urls cache req).cache = cache ∧
    (handleCallEnded true pj rj urls cache req).response
      = .serverError "Failed to reject call" ∧
    rejectCount (handleCallEnded true pj rj urls cache req).actions = 1 ∧
    (Guard (handleCallEnded true pj rj urls cache req).cache (dedupKey req)).1
      = true ∧
    (handleCallEnded true pj rj urls
        (handleCallEnded true pj rj urls cache req).cache req).actions
      = [.rejectCall jid req.callId] := by
  refine ⟨?_, ?_, ?_, ?_, ?_⟩ <;>
    simp [handleCallEnded, hc, hp, hpj, hrj, Guard, hk, rejectCount]

/-- Witness for C6: a failing reject-call with `call_id="ABC", Phone="+1555"`
against an empty cache. -/
theorem call_ended_evict_on_failure_w :
    (handleCallEnded true (fun s => .ok s) (fun _ _ => false)
        ["https://hook.example"] [] ⟨"ABC", "+1555"⟩).cache = [] ∧
    (Guard (handleCallEnded true (fun s => .ok s) (fun _ _ => false)
        ["https://hook.example"] [] ⟨"ABC", "+1555"⟩).cache
      (dedupKey ⟨"ABC", "+1555"⟩)).1 = true :=
  have h := call_ended_evict_on_failure (fun s => .ok s) (fun _ _ => false)
    ["https://hook.example"] [] ⟨"ABC", "+1555"⟩ "+1555"
    (by decide) (by decide) rfl rfl (by decide)
  ⟨h.1, h.2.2.2.1⟩

/-- C3: against a URL failing at the transport level on every attempt,
`SubmitWebhook` makes exactly 5 attempts, the delays falling between
consecutive attempts are 1s, 2s, 4s, 8s, and the returned error names the
attempt count (5); success on any attempt short-circuits immediately, with no
further attempts and no sleep after the successful attempt. -/
theorem submit_retry_policy (doOk : Nat → Bool) :
    ((∀ i, doOk i = false) →
      (SubmitWebhook doOk).attemptsMade = 5 ∧
      interAttemptDelays (SubmitWebhook doOk) = [1, 2, 4, 8] ∧
      (SubmitWebhook doOk).failAttempts = some 5 ∧
      (SubmitWebhook doOk).success = false) ∧
    (∀ i, i < 5 → doOk i = true → (∀ j, j < i → doOk j = false) →
      (SubmitWebhook doOk).success = true ∧
      (SubmitWebhook doOk).attemptsMade = i + 1 ∧
      (SubmitWebhook doOk).sleeps.length = i) := by
  constructor
  · intro h
    simp [SubmitWebhook, submitLoop, h, interAttemptDelays]
  · intro i hi hs hb
    interval_cases i
    · simp [SubmitWebhook, submitLoop, hs]
    · simp [SubmitWebhook, submitLoop, hb 0 (by omega), hs]
    · simp [SubmitWebhook, submitLoop, hb 0 (by omega), hb 1 (by omega), hs]
    · simp [SubmitWebhook, submitLoop, hb 0 (by omega), hb 1 (by omega),
        hb 2 (by omega), hs]
    · simp [SubmitWebhook, submitLoop, hb 0 (by omega), hb 1 (by omega),
        hb 2 (by omega), hb 3 (by omega), hs]

/-- Witness for C3 at the always-failing transport oracle. -/
theorem submit_retry_policy_w :
    (SubmitWebhook (fun _ => false)).attemptsMade = 5 ∧
    interAttemptDelays (SubmitWebhook (fun _ => false)) = [1, 2, 4, 8] ∧
    (SubmitWebhook (fun _ => false)).failAttempts = some 5 ∧
    (SubmitWebhook (fun _ => false)).success = false :=
  (submit_retry_policy (fun _ => false)).1 (fun _ => rfl)

/-- C10: when every attempt fails at the transport level, the loop also sleeps
the next doubled backoff (16s) after the fifth and final failed attempt before
returning — five backoff sleeps (1s, 2s, 4s, 8s, 16s) in total, not four. -/
theorem submit_trailing_sleep (doOk : Nat → Bool) (h : ∀ i, doOk i = false) :
    (SubmitWebhook doOk).sleeps = [1, 2, 4, 8, 16] ∧
    (SubmitWebhook doOk).sleeps.length = 5 ∧
    (SubmitWebhook doOk).attemptsMade = 5 := by
  simp [SubmitWebhook, submitLoop, h]

/-- Witness for C10 at the always-failing transport oracle. -/
theorem submit_trailing_sleep_w :
    (SubmitWebhook (fun _ => false)).sleeps = [1, 2, 4, 8, 16] ∧
    (SubmitWebhook (fun _ => false)).sleeps.length = 5 ∧
    (SubmitWebhook (fun _ => false)).attemptsMade = 5 :=
  submit_trailing_sleep (fun _ => false) (fun _ => rfl)

/-- C1 counterexample: with two configured URLs where the first one fails,
`forwardToWebhook`'s delivery loop never attempts the second URL — a URL's
failure does prevent delivery attempts to the remaining URLs, refuting the
claim as stated. -/
theorem forward_abort_cex :
    forwardLoop (fun u => decide (u = "https://b.example"))
        ["https://a.example", "https://b.example"]
      = (["https://a.example"], false) ∧
    "https://b.example" ∉
      (forwardLoop (fun u => decide (u = "https://b.example"))
        ["https://a.example", "https://b.example"]).1 := by
  decide

/-- C1 amended: delivery is invoked sequentially once per URL; successes
already achieved for earlier URLs are kept (never rolled back) and the failing
URL is the last one attempted, but the loop stops there, so the remaining URLs
are not attempted; when every URL succeeds all URLs are delivered to. -/
theorem forward_sequential_no_rollback (submit : String → Bool)
    (us vs : List String) (v : String)
    (hus : ∀ u ∈ us, submit u = true) (hv : submit v = false) :
    forwardLoop submit (us ++ v :: vs) = (us ++ [v], false) ∧
    (∀ urls, (∀ u ∈ urls, submit u = true) → forwardLoop submit urls = (urls, true)) := by
  constructor
  · revert hus
    induction us with
    | nil => intro _; simp [forwardLoop, hv]
    | cons u rest ih =>
        intro hus
        have hu : submit u = true := hus u (List.mem_cons_self u rest)
        have h2 := ih (fun x hx => hus x (List.mem_cons_of_mem u hx))
        simp [forwardLoop, hu, h2]
  · intro urls hall
    clear hus hv
    revert hall
    induction urls with
    | nil => intro _; simp [forwardLoop]
    | cons u rest ih =>
        intro hall
        have hu : submit u = true := hall u (List.mem_cons_self u rest)
        have h2 := ih (fun x hx => hall x (List.mem_cons_of_mem u hx))
        simp [forwardLoop, hu, h2]

/-- Witness for the amended C1: one succeeding URL, then a failing one, then a
URL that is never reached. -/
theorem forward_sequential_no_rollback_w :
    forwardLoop (fun u => decide (u = "https://a.example"))
        (["https://a.example"] ++ "https://b.example" :: ["https://c.example"])
      = (["https://a.example"] ++ ["https://b.example"], false) :=
  (forward_sequential_no_rollback (fun u => decide (u = "https://a.example"))
    ["https://a.example"] ["https://c.example"] "https://b.example"
    (by decide) (by decide)).1

/-- A successful `createPayload` decomposes into a successful JID parse and
five successful extraction steps, with the payload assembled from them. -/
theorem createPayload_ok_elim (co : Collab) (evt : MessageEvent) (p : Payload)
    (h : createPayload co evt = .ok p) :
    ∃ jid pa pd pi ps pv,
      co.parseJID evt.info.chatString = .ok jid ∧
      extractIf co (evt.message.audio.map AudioMsg.ref) "audio" = .ok pa ∧
      extractIf co evt.message.document "document" = .ok pd ∧
      extractIf co evt.message.image "image" = .ok pi ∧
      extractIf co evt.message.sticker "sticker" = .ok ps ∧
      extractIf co evt.message.video "video" = .ok pv ∧
      p = assemblePayload co evt jid pa pd pi ps pv := by
  unfold createPayload at h
  cases h1 : co.parseJID evt.info.chatString with
  | error e => simp [h1] at h
  | ok jid =>
    simp only [h1] at h
    cases h2 : extractIf co (evt.message.audio.map AudioMsg.ref) "audio" with
    | error e => simp [h2] at h
    | ok pa =>
      simp only [h2] at h
      cases h3 : extractIf co evt.message.document "document" with
      | error e => simp [h3] at h
      | ok pd =>
        simp only [h3] at h
        cases h4 : extractIf co evt.message.image "image" with
        | error e => simp [h4] at h
        | ok pi =>
          simp only [h4] at h
          cases h5 : extractIf co evt.message.sticker "sticker" with
          | error e => simp [h5] at h
          | ok ps =>
            simp only [h5] at h
            cases h6 : extractIf co evt.message.video "video" with
            | error e => simp [h6] at h
            | ok pv =>
              simp only [h6, Except.ok.injEq] at h
              exact ⟨jid, pa, pd, pi, ps, pv, rfl, rfl, rfl, rfl, rfl, rfl, h.symm⟩

/-- An `extractIf` with no media reference succeeds with no path. -/
theorem extractIf_none_ok (co : Collab) (what : String) (r : Option String)
    (h : extractIf co none what = .ok r) : r = none := by
  simpa [extractIf] using h.symm

/-- A successful `extractIf` on a present media reference yields a path. -/
theorem extractIf_some_ok (co : Collab) (ref what : String) (r : Option String)
    (h : extractIf co (some ref) what = .ok r) : ∃ path, r = some path := by
  unfold extractIf at h
  cases hm : co.extractMedia ref with
  | error e => simp [hm] at h
  | ok path =>
    simp only [hm, Except.ok.injEq] at h
    exact ⟨path, h.symm⟩

/-- C4: whenever the envelope is declared as generic `media` type and the raw
content carries the multi-contact marker, any successfully built payload is
classified `contact_message`, regardless of which per-variant media rules
would otherwise match. -/
theorem media_multi_contact_override (co : Collab) (evt : MessageEvent)
    (hm : multiContactOverride evt = true)
    (hok : isErrE (createPayload co evt) = false) :
    typeOf (createPayload co evt) = some "contact_message" := by
  cases hcp : createPayload co evt with
  | error e => simp [hcp, isErrE] at hok
  | ok p =>
    obtain ⟨jid, pa, pd, pi, ps, pv, h1, h2, h3, h4, h5, h6, hp⟩ :=
      createPayload_ok_elim co evt p hcp
    simp [typeOf, okPayload, hp, assemblePayload, hm]

/-- Witness for C4: a `media`-typed envelope whose message carries both an
image and a multi-contact array is still classified `contact_message`. -/
theorem media_multi_contact_override_w :
    multiContactOverride mediaContactEvent = true ∧
    typeOf (createPayload okCollab mediaContactEvent) = some "contact_message" :=
  ⟨by decide,
   media_multi_contact_override okCollab mediaContactEvent (by decide) (by decide)⟩

/-- C5: building the payload fails (returning no payload) exactly when JID
parsing of the chat identity fails or some required media extraction
(audio/document/image/sticker/video) fails; and a group-name lookup failure
never fails the payload — it merely omits `GroupName`. -/
theorem payload_failure_characterization (co : Collab) (evt : MessageEvent) :
    (isErrE (createPayload co evt) = true ↔
      (isErrE (co.parseJID evt.info.chatString) = true
        ∨ requiredExtractionFails co evt.message = true)) ∧
    (∀ jid, co.parseJID evt.info.chatString = .ok jid →
      isErrE (co.getGroupName jid) = true →
      isErrE (createPayload co evt) = false →
      groupNameOf (createPayload co evt) = some none) := by
  constructor
  · unfold createPayload requiredExtractionFails
    cases h1 : co.parseJID evt.info.chatString with
    | error e => simp [isErrE]
    | ok jid =>
      cases h2 : extractIf co (evt.message.audio.map AudioMsg.ref) "audio" with
      | error e => simp [isErrE, h2]
      | ok pa =>
        cases h3 : extractIf co evt.message.document "document" with
        | error e => simp [isErrE, h2, h3]
        | ok pd =>
          cases h4 : extractIf co evt.message.image "image" with
          | error e => simp [isErrE, h2, h3, h4]
          | ok pi =>
            cases h5 : extractIf co evt.message.sticker "sticker" with
            | error e => simp [isErrE, h2, h3, h4, h5]
            | ok ps =>
              cases h6 : extractIf co evt.message.video "video" with
              | error e => simp [isErrE, h2, h3, h4, h5, h6]
              | ok pv => simp [isErrE, h2, h3, h4, h5, h6]
  · intro jid hpj hg hok
    cases hcp : createPayload co evt with
    | error e => simp [hcp, isErrE] at hok
    | ok p =>
      obtain ⟨jid', pa, pd, pi, ps, pv, h1, h2, h3, h4, h5, h6, hp⟩ :=
        createPayload_ok_elim co evt p hcp
      have hjid : jid' = jid := by
        rw [hpj] at h1
        exact (Except.ok.injEq _ _ ▸ h1).symm
      cases hgm : co.getGroupName jid with
      | ok n => simp [hgm, isErrE] at hg
      | error e =>
        simp [groupNameOf, okPayload, hp, assemblePayload, hjid, hgm]

/-- Witness for C5: with always-succeeding collaborators except a failing
group-name lookup, a group-chat text event still builds, omitting
`GroupName`. -/
theorem payload_failure_characterization_w :
    groupNameOf (createPayload
      { okCollab with getGroupName := fun _ => .error "boom" }
      (mkEvent { baseInfo with chatString := "G1@g.us" } (.text "hey") false false))
      = some none :=
  (payload_failure_characterization
    { okCollab with getGroupName := fun _ => .error "boom" }
    (mkEvent { baseInfo with chatString := "G1@g.us" } (.text "hey") false false)).2
    "G1@g.us" rfl rfl (by decide)

/-- C9 counterexample: an event with an empty sender source string builds a
payload that lacks `SenderNumber`, refuting "always contains
`SenderNumber`". -/
theorem sender_number_cex :
    senderNumberOf (createPayload okCollab emptySenderEvent) = some none := by
  decide

/-- C9 amended: every successfully built payload contains `message.ID`,
`message.MessageOrigin` and `message.RepliedId` (copied from the event), and
contains `SenderNumber` exactly when the event's sender source string is
non-empty. -/
theorem payload_core_fields (co : Collab) (evt : MessageEvent) (p : Payload)
    (h : createPayload co evt = .ok p) :
    p.message.id = evt.info.msgId ∧
    p.message.messageOrigin = evt.info.quotedMessage ∧
    p.message.repliedId = evt.info.repliedId ∧
    p.senderNumber
      = (if evt.info.sourceString = "" then none else some evt.info.sourceString) := by
  obtain ⟨jid, pa, pd, pi, ps, pv, h1, h2, h3, h4, h5, h6, hp⟩ :=
    createPayload_ok_elim co evt p h
  simp [hp, assemblePayload, buildEventMessage]

/-- Witness for C9's amended theorem at a concrete text event. -/
theorem payload_core_fields_w :
    (payloadOrEmpty (createPayload okCollab
        (mkEvent baseInfo (.text "hello") false false))).message.id
      = (mkEvent baseInfo (.text "hello") false false).info.msgId ∧
    (payloadOrEmpty (createPayload okCollab
        (mkEvent baseInfo (.text "hello") false false))).message.messageOrigin
      = (mkEvent baseInfo (.text "hello") false false).info.quotedMessage ∧
    (payloadOrEmpty (createPayload okCollab
        (mkEvent baseInfo (.text "hello") false false))).message.repliedId
      = (mkEvent baseInfo (.text "hello") false false).info.repliedId ∧
    (payloadOrEmpty (createPayload okCollab
        (mkEvent baseInfo (.text "hello") false false))).senderNumber
      = (if (mkEvent baseInfo (.text "hello") false false).info.sourceString = ""
         then none
         else some (mkEvent baseInfo (.text "hello") false false).info.sourceString) :=
  payload_core_fields okCollab (mkEvent baseInfo (.text "hello") false false)
    (payloadOrEmpty (createPayload okCollab
      (mkEvent baseInfo (.text "hello") false false))) rfl

/-- A successful extraction yields a path exactly when the media reference was
present. -/
theorem extractIf_ok_isSome (co : Collab) (r? : Option String) (what : String)
    (r : Option String) (h : extractIf co r? what = .ok r) :
    r.isSome = r?.isSome := by
  cases r? with
  | none => simp [extractIf_none_ok co what r h]
  | some ref =>
      obtain ⟨path, rfl⟩ := extractIf_some_ok co ref what r h
      simp

/-- The empty string contains no URL. -/
theorem matchesUrlPattern_empty : matchesUrlPattern "" = false := rfl

/-- C7 counterexample: the payload of an event whose chat string is
`55@g.usa` has `IsGroup = true` although the chat string does not end in the
group-domain suffix `@g.us` — `IsGroup` is not derived from a suffix test. -/
theorem isgroup_contains_cex :
    isGroupOf (createPayload okCollab gusaEvent) = some true ∧
    strEndsWith gusaEvent.info.chatString "@g.us" = false := by
  decide

set_option maxHeartbeats 2000000 in
/-- C7 amended: for every event carrying exactly one populated variant, a
successfully built payload has at most one of the media keys
`audio`/`document`/`image`/`sticker`/`video`; `Type` is always present and
consistent with whichever media/content key is present (each media-path key,
the pass-through `contact`/`list`/`live_location`/`location`/`order` keys, the
`reaction` key and the `PollUpdate` key force the matching kind, and a
text-shaped event yields a text-shaped kind); and `IsGroup` is always
present, derived solely from whether the chat identity's string form
*contains* the group-domain suffix `@g.us` (the source uses a substring test,
not a suffix test). -/
theorem single_variant_payload_invariants (co : Collab) (info : MessageInfo)
    (v : EventVariant) (vo fw : Bool) (p : Payload)
    (h : createPayload co (mkEvent info v vo fw) = .ok p) :
    mediaKeyCount p ≤ 1 ∧
    (p.audio.isSome = true →
      p.msgType = "voice_message" ∨ p.msgType = "audio_message") ∧
    (p.document.isSome = true → p.msgType = "document_message") ∧
    (p.image.isSome = true → p.msgType = "image_message") ∧
    (p.sticker.isSome = true → p.msgType = "sticker_message") ∧
    (p.video.isSome = true → p.msgType = "video_message") ∧
    (p.contact.isSome = true → p.msgType = "contact_message") ∧
    (p.list.isSome = true → p.msgType = "list_message") ∧
    (p.liveLocation.isSome = true → p.msgType = "live_location_message") ∧
    (p.location.isSome = true → p.msgType = "location_message") ∧
    (p.order.isSome = true → p.msgType = "order") ∧
    (p.reaction.isSome = true → p.msgType = "reaction_message") ∧
    (p.message.pollUpdate.isSome = true → p.msgType = "poll_message") ∧
    ((¬ (messageOfVariant v).conversation = ""
        ∨ (messageOfVariant v).extendedText.isSome = true) →
      p.msgType = "link_message" ∨ p.msgType = "text_message") ∧
    p.isGroup = strContains info.chatString "@g.us" := by
  obtain ⟨jid, pa, pd, pi, ps, pv, h1, h2, h3, h4, h5, h6, hp⟩ :=
    createPayload_ok_elim co (mkEvent info v vo fw) p h
  subst hp
  have e2 := extractIf_ok_isSome _ _ _ _ h2
  have e3 := extractIf_ok_isSome _ _ _ _ h3
  have e4 := extractIf_ok_isSome _ _ _ _ h4
  have e5 := extractIf_ok_isSome _ _ _ _ h5
  have e6 := extractIf_ok_isSome _ _ _ _ h6
  clear h h1 h2 h3 h4 h5 h6
  cases v <;>
    simp_all [mkEvent, messageOfVariant, emptyMessage, assemblePayload,
      determineMessageType, multiContactOverride, mediaKeyCount,
      buildEventMessage, buildEventReaction]

/-- Witness for C7's amended theorem at a single-variant image event: media
count, media-key consistency (`image`), content-key consistency (`contact`,
`list`, `reaction`) and the `IsGroup` derivation, all at a concrete input. -/
theorem single_variant_payload_invariants_w :
    mediaKeyCount (payloadOrEmpty (createPayload okCollab
        (mkEvent baseInfo (.image "pic") false false))) ≤ 1 ∧
    ((payloadOrEmpty (createPayload okCollab
        (mkEvent baseInfo (.image "pic") false false))).image.isSome = true →
      (payloadOrEmpty (createPayload okCollab
        (mkEvent baseInfo (.image "pic") false false))).msgType = "image_message") ∧
    ((payloadOrEmpty (createPayload okCollab
        (mkEvent baseInfo (.image "pic") false false))).contact.isSome = true →
      (payloadOrEmpty (createPayload okCollab
        (mkEvent baseInfo (.image "pic") false false))).msgType = "contact_message") ∧
    ((payloadOrEmpty (createPayload okCollab
        (mkEvent baseInfo (.image "pic") false false))).list.isSome = true →
      (payloadOrEmpty (createPayload okCollab
        (mkEvent baseInfo (.image "pic") false false))).msgType = "list_message") ∧
    ((payloadOrEmpty (createPayload okCollab
        (mkEvent baseInfo (.image "pic") false false))).reaction.isSome = true →
      (payloadOrEmpty (createPayload okCollab
        (mkEvent baseInfo (.image "pic") false false))).msgType = "reaction_message") ∧
    (payloadOrEmpty (createPayload okCollab
        (mkEvent baseInfo (.image "pic") false false))).isGroup
      = strContains baseInfo.chatString "@g.us" :=
  have h := single_variant_payload_invariants okCollab baseInfo (.image "pic")
    false false
    (payloadOrEmpty (createPayload okCollab
      (mkEvent baseInfo (.image "pic") false false))) rfl
  ⟨h.1, h.2.2.2.1, h.2.2.2.2.2.2.1, h.2.2.2.2.2.2.2.1,
   h.2.2.2.2.2.2.2.2.2.2.2.1, h.2.2.2.2.2.2.2.2.2.2.2.2.2.2⟩

/-- C8: for every single-variant event whose resolved text body matches the
URL pattern, a successfully built payload has `Type = "link_message"`,
`message.TextMessage` equal to the raw resolved text, and
`TitleLink`/`LinkDescription` copied from the extended-text metadata when
present — `Type` is computed against the final resolved text, so it never
disagrees with `TextMessage`/`TitleLink`. -/
theorem link_message_payload (co : Collab) (info : MessageInfo)
    (v : EventVariant) (vo fw : Bool) (p : Payload)
    (hurl : matchesUrlPattern (buildEventMessage (mkEvent info v vo fw)).text = true)
    (h : createPayload co (mkEvent info v vo fw) = .ok p) :
    p.msgType = "link_message" ∧
    p.message.textMessage = (buildEventMessage (mkEvent info v vo fw)).text ∧
    p.message.titleLink = specTitleLink (messageOfVariant v) ∧
    p.message.linkDescription = specLinkDescription (messageOfVariant v) := by
  obtain ⟨jid, pa, pd, pi, ps, pv, h1, h2, h3, h4, h5, h6, hp⟩ :=
    createPayload_ok_elim co (mkEvent info v vo fw) p h
  subst hp
  clear h h1 h2 h3 h4 h5 h6
  cases v <;>
    simp_all [mkEvent, messageOfVariant, emptyMessage, buildEventMessage,
      matchesUrlPattern_empty]
  case text b =>
    have hb : ¬ b = "" := by
      intro hb
      rw [hb] at hurl
      exact absurd hurl (by decide)
    simp [assemblePayload, determineMessageType, multiContactOverride,
      buildEventMessage, mkEvent, messageOfVariant, emptyMessage,
      specTitleLink, specLinkDescription, hb, hurl]
  case extendedText et =>
    simp [assemblePayload, determineMessageType, multiContactOverride,
      buildEventMessage, mkEvent, messageOfVariant, emptyMessage,
      specTitleLink, specLinkDescription, hurl]

/-- Witness for C8 at the spec's example text
`"check https://example.com now"`. -/
theorem link_message_payload_w :
    (payloadOrEmpty (createPayload okCollab
        (mkEvent baseInfo (.text "check https://example.com now") false false))).msgType
      = "link_message" ∧
    (payloadOrEmpty (createPayload okCollab
        (mkEvent baseInfo (.text "check https://example.com now") false false))).message.textMessage
      = (buildEventMessage
          (mkEvent baseInfo (.text "check https://example.com now") false false)).text ∧
    (payloadOrEmpty (createPayload okCollab
        (mkEvent baseInfo (.text "check https://example.com now") false false))).message.titleLink
      = specTitleLink (messageOfVariant (.text "check https://example.com now")) ∧
    (payloadOrEmpty (createPayload okCollab
        (mkEvent baseInfo (.text "check https://example.com now") false false))).message.linkDescription
      = specLinkDescription (messageOfVariant (.text "check https://example.com now")) :=
  link_message_payload okCollab baseInfo (.text "check https://example.com now")
    false false
    (payloadOrEmpty (createPayload okCollab
      (mkEvent baseInfo (.text "check https://example.com now") false false)))
    (by decide) rfl

end ZapReply

/-!
Concrete evaluations validating the embedding's executable behaviour.
-/

section Validation
open ZapReply

example : matchesUrlPattern "check https://example.com now" = true := by decide
example : matchesUrlPattern "" = false := by decide
example : matchesUrlPattern "http:// nope" = false := by decide
example : matchesUrlPattern "see http://x" = true := by decide
example : strContains "55@g.usa" "@g.us" = true := by decide
example : strEndsWith "55@g.usa" "@g.us" = false := by decide
example : strEndsWith "55@g.us" "@g.us" = true := by decide

example :
    typeOf (createPayload okCollab
      (mkEvent baseInfo (.audio { ptt := true, ref := "a1" }) false false))
      = some "voice_message" := by decide

example :
    typeOf (createPayload okCollab
      (mkEvent baseInfo (.audio { ptt := false, ref := "a1" }) false false))
      = some "audio_message" := by decide

example :
    typeOf (createPayload okCollab (mkEvent baseInfo (.image "p") false false))
      = some "image_message" := by decide

example :
    (payloadOrEmpty (createPayload okCollab (mkEvent baseInfo
        (.extendedText { text := "go https://x.y", title := "T", description := "D" })
        false false))).message.titleLink = some "T" := by decide

example :
    typeOf (createPayload okCollab (mkEvent baseInfo
        (.extendedText { text := "go https://x.y", title := "T", description := "D" })
        false false)) = some "link_message" := by decide

example :
    typeOf (createPayload okCollab (mkEvent baseInfo
        (.extendedText { text := "no link here", title := "T", description := "D" })
        false false)) = some "text_message" := by decide

example :
    isErrE (createPayload
      { okCollab with extractMedia := fun _ => .error "net" }
      (mkEvent baseInfo (.image "p") false false)) = true := by decide

example :
    isErrE (createPayload
      { okCollab with parseJID := fun _ => .error "bad" }
      (mkEvent baseInfo (.text "t") false false)) = true := by decide

example :
    (payloadOrEmpty (createPayload okCollab
      (mkEvent baseInfo (.image "p") false false))).image = some "/media/p" := by decide

example :
    typeOf (createPayload okCollab
      (mkEvent baseInfo (.contactsArray [{ displayName := "B", vcard := "V" }]) false false))
      = some "unknown" := by decide

example :
    typeOf (createPayload okCollab
      (mkEvent { baseInfo with envType := "media" }
        (.contactsArray [{ displayName := "B", vcard := "V" }]) false false))
      = some "contact_message" := by decide

example :
    typeOf (createPayload okCollab
      (mkEvent baseInfo (.contact { displayName := "B", vcard := "V" }) false false))
      = some "contact_message" := by decide

example :
    typeOf (createPayload okCollab (mkEvent baseInfo (.list "L") false false))
      = some "list_message" := by decide

example :
    typeOf (createPayload okCollab (mkEvent baseInfo (.location "X") false false))
      = some "location_message" := by decide

example :
    typeOf (createPayload okCollab (mkEvent baseInfo (.reaction "+1") false false))
      = some "reaction_message" := by decide

example :
    typeOf (createPayload okCollab
      (mkEvent baseInfo (.pollUpdate { pollId := "P1" }) false false))
      = some "poll_message" := by decide

end Validation
